import Mathlib

/-!
Verification of the bikeshare statistics program (`bikeshare.py`).

The program loads a table of bike-share trips, optionally filters it to a
calendar month or single day of 2017, and computes descriptive statistics
(most popular month / weekday / hour, trip-duration totals, most popular
stations and station pair, user-type and gender counts, birth-year extremes
and mode).  This file gives a shallow embedding of the pure core of
`bikeshare.py` — the data model, the time-period filter, the nine
aggregators and the driver's stage sequencing — and proves the specified
properties about it.

Conventions of the embedding:
* a pandas `DataFrame` of trips is a `List Trip` (row order preserved);
* a Python `datetime` timestamp is a `Timestamp`; `Series.dt.date` is
  `Timestamp.date`, `Series.dt.month` / `.weekday` / `.hour` are the
  corresponding projections;
* a Python exception (`IndexError`, `KeyError`, `ValueError`) escaping an
  aggregator is modelled by the aggregator returning `none` / the driver
  stage returning `Except.error`;
* `Series.value_counts()` is `valueCounts`: distinct values paired with
  their multiplicity, sorted by descending count (ties keep first-encounter
  order, the reference tie-break).
-/

/-- Calendar date, the value of `Series.dt.date` / `datetime.date(y, m, d)`. -/
structure Date where
  year : Nat
  month : Nat
  day : Nat
deriving DecidableEq, Repr

/-- Python `datetime.date` comparison is lexicographic on (year, month, day). -/
def Date.le (a b : Date) : Bool :=
  decide (a.year < b.year) ||
    (decide (a.year = b.year) &&
      (decide (a.month < b.month) ||
        (decide (a.month = b.month) && decide (a.day ≤ b.day))))

/-- A parsed timestamp (`parse_dates` column), to calendar-minute precision. -/
structure Timestamp where
  year : Nat
  month : Nat
  day : Nat
  hour : Nat
  minute : Nat
deriving DecidableEq, Repr

/-- `Series.dt.date`: the calendar-date part of a timestamp (time of day dropped). -/
def Timestamp.date (t : Timestamp) : Date :=
  ⟨t.year, t.month, t.day⟩

/-- One row of a city's trip table (`Trip Record`).  `gender` and `birthYear`
are `Option`-valued: `none` models an absent (NaN) entry. -/
structure Trip where
  startTime : Timestamp
  endTime : Timestamp
  tripDuration : Int
  startStation : String
  endStation : String
  userType : String
  gender : Option String
  birthYear : Option Int
deriving DecidableEq, Repr

/-- The time-period dictionary returned by `get_time_period`:
`{period: str, year: int, month: int, day: [int, int]}`.  The `none`
granularity stores Python `None` in the numeric slots, modelled by `Option`. -/
structure TimePeriod where
  period : String
  year : Option Nat
  month : Option Nat
  dayLo : Option Nat
  dayHi : Option Nat
deriving DecidableEq, Repr

/-- `filter_city_data(city_data, time_period)`: keeps the rows whose
`Start Time` date lies between `date(year, month, day[0])` and
`date(year, month, day[1])`, both inclusive.  Constructing `datetime.date`
from Python `None` raises `TypeError`, modelled by the `none` branch. -/
def filter_city_data (city_data : List Trip) (tp : TimePeriod) : Option (List Trip) :=
  match tp.year, tp.month, tp.dayLo, tp.dayHi with
  | some y, some m, some d1, some d2 =>
      some (city_data.filter (fun r =>
        Date.le ⟨y, m, d1⟩ r.startTime.date && Date.le r.startTime.date ⟨y, m, d2⟩))
  | _, _, _, _ => none

/-- Python `calendar.isleap`. -/
def isleap (y : Nat) : Bool :=
  decide (y % 4 = 0) && (!decide (y % 100 = 0) || decide (y % 400 = 0))

/-- `calendar.monthrange(y, m)[1]`: the number of days of month `m` in year
`y` (Python's `mdays` table, with February adjusted for leap years). -/
def monthrange_days (y m : Nat) : Nat :=
  [0, 31, 28, 31, 30, 31, 30, 31, 31, 30, 31, 30, 31].getD m 0 +
    (if m = 2 then (if isleap y then 1 else 0) else 0)

/-- `get_time_period` on answer `'month'` with validated month `m`:
`{'period': 'month', 'year': 2017, 'month': m, 'day': [1, last_day_of_month]}`. -/
def get_time_period_month (m : Nat) : TimePeriod :=
  { period := "month", year := some 2017, month := some m,
    dayLo := some 1, dayHi := some (monthrange_days 2017 m) }

/-- `get_time_period` on answer `'day'` with validated month `m` and day `d`:
`{'period': 'day', 'year': 2017, 'month': m, 'day': [d, d]}`. -/
def get_time_period_day (m d : Nat) : TimePeriod :=
  { period := "day", year := some 2017, month := some m,
    dayLo := some d, dayHi := some d }

/-- `get_time_period` on answer `'none'`:
`{'period': 'none', 'year': None, 'month': None, 'day': [None, None]}`. -/
def get_time_period_none : TimePeriod :=
  { period := "none", year := none, month := none, dayLo := none, dayHi := none }

/-- Distinct values of a list in first-encounter order, with an accumulator of
values already seen (helper for `valueCounts`). -/
def uniquesAux {α : Type} [DecidableEq α] (seen : List α) : List α → List α
  | [] => []
  | x :: xs => if x ∈ seen then uniquesAux seen xs else x :: uniquesAux (x :: seen) xs

/-- Distinct values of a list in first-encounter order (the unique values a
pandas `Series.value_counts` tallies). -/
def uniques {α : Type} [DecidableEq α] (l : List α) : List α :=
  uniquesAux [] l

/-- Ordering of `(value, count)` pairs by descending count, the sort order of
`Series.value_counts()`. -/
def countGE {α : Type} (p q : α × Nat) : Prop :=
  q.2 ≤ p.2

instance {α : Type} : DecidableRel (α := α × Nat) countGE :=
  fun p q => Nat.decLe q.2 p.2

instance {α : Type} : IsTotal (α × Nat) countGE :=
  ⟨fun p q => Nat.le_total q.2 p.2⟩

instance {α : Type} : IsTrans (α × Nat) countGE :=
  ⟨fun _ _ _ h1 h2 => Nat.le_trans h2 h1⟩

/-- Occurrence count of a value in a list (`List.count`, with the equality
test fixed to the one induced by `DecidableEq`, the instance `valueCounts`
tallies with). -/
def cnt {α : Type} [DecidableEq α] (a : α) (l : List α) : Nat :=
  l.count a

/-- `Series.value_counts()`: each distinct value paired with its number of
occurrences, sorted by descending count (insertion sort is stable, so ties
keep first-encounter order, the reference tie-break). -/
def valueCounts {α : Type} [DecidableEq α] (xs : List α) : List (α × Nat) :=
  List.insertionSort countGE ((uniques xs).map (fun v => (v, cnt v xs)))

theorem mem_uniquesAux {α : Type} [DecidableEq α] (a : α) :
    ∀ (l : List α) (seen : List α), a ∈ uniquesAux seen l ↔ a ∈ l ∧ a ∉ seen := by
  intro l
  induction l with
  | nil => intro seen; simp [uniquesAux]
  | cons x xs ih =>
    intro seen
    by_cases hx : x ∈ seen
    · simp only [uniquesAux, if_pos hx, ih]
      constructor
      · rintro ⟨ha, hs⟩
        exact ⟨List.mem_cons_of_mem _ ha, hs⟩
      · rintro ⟨ha, hs⟩
        rcases List.mem_cons.mp ha with rfl | ha
        · exact absurd hx hs
        · exact ⟨ha, hs⟩
    · simp only [uniquesAux, if_neg hx, List.mem_cons, ih]
      constructor
      · rintro (rfl | ⟨ha, hs⟩)
        · exact ⟨Or.inl rfl, hx⟩
        · exact ⟨Or.inr ha, fun hc => hs (Or.inr hc)⟩
      · rintro ⟨rfl | ha, hs⟩
        · exact Or.inl rfl
        · by_cases hax : a = x
          · exact Or.inl hax
          · exact Or.inr ⟨ha, fun hc => hc.elim hax hs⟩

theorem mem_uniques {α : Type} [DecidableEq α] {a : α} {l : List α} :
    a ∈ uniques l ↔ a ∈ l := by
  simp [uniques, mem_uniquesAux]

theorem uniques_eq_nil {α : Type} [DecidableEq α] {l : List α} :
    uniques l = [] ↔ l = [] := by
  cases l with
  | nil => simp [uniques, uniquesAux]
  | cons x xs => simp [uniques, uniquesAux]

theorem mem_valueCounts {α : Type} [DecidableEq α] {xs : List α} {p : α × Nat} :
    p ∈ valueCounts xs ↔ ∃ v, v ∈ xs ∧ p = (v, cnt v xs) := by
  unfold valueCounts
  rw [(List.perm_insertionSort countGE _).mem_iff, List.mem_map]
  constructor
  · rintro ⟨v, hv, rfl⟩
    exact ⟨v, mem_uniques.mp hv, rfl⟩
  · rintro ⟨v, hv, rfl⟩
    exact ⟨v, mem_uniques.mpr hv, rfl⟩

theorem valueCounts_eq_nil {α : Type} [DecidableEq α] {xs : List α} :
    valueCounts xs = [] ↔ xs = [] := by
  unfold valueCounts
  rw [← List.length_eq_zero, (List.perm_insertionSort countGE _).length_eq,
    List.length_map, List.length_eq_zero, uniques_eq_nil]

/-- The head of `valueCounts xs` carries a genuine value of `xs`, its exact
multiplicity, and that multiplicity is maximal — `value_counts().index[0]`
and `.iloc[0]` are a mode of the data and its count. -/
theorem valueCounts_head {α : Type} [DecidableEq α] {xs : List α} {p : α × Nat}
    {rest : List (α × Nat)} (h : valueCounts xs = p :: rest) :
    p.1 ∈ xs ∧ p.2 = cnt p.1 xs ∧ ∀ v ∈ xs, cnt v xs ≤ p.2 := by
  have hp : p ∈ valueCounts xs := h ▸ List.mem_cons_self p rest
  obtain ⟨v, hv, rfl⟩ := mem_valueCounts.mp hp
  refine ⟨hv, rfl, ?_⟩
  intro w hw
  have hwmem : (w, cnt w xs) ∈ valueCounts xs :=
    mem_valueCounts.mpr ⟨w, hw, rfl⟩
  rw [h] at hwmem
  rcases List.mem_cons.mp hwmem with heq | hmem
  · rw [← heq]
  · have hs : List.Sorted countGE (valueCounts xs) :=
      List.sorted_insertionSort countGE _
    rw [h] at hs
    exact List.rel_of_sorted_cons hs _ hmem

/-- The count attached to the head of `valueCounts` is invariant under
permutation of the underlying data. -/
theorem valueCounts_head_count_perm {α : Type} [DecidableEq α] {xs ys : List α}
    (h : xs.Perm ys) :
    (valueCounts xs).head?.map Prod.snd = (valueCounts ys).head?.map Prod.snd := by
  cases hx : valueCounts xs with
  | nil =>
    have : ys = [] := by
      have hxnil : xs = [] := valueCounts_eq_nil.mp hx
      subst hxnil
      exact h.symm.eq_nil
    rw [valueCounts_eq_nil.mpr this]
  | cons p ps =>
    cases hy : valueCounts ys with
    | nil =>
      have hynil : ys = [] := valueCounts_eq_nil.mp hy
      subst hynil
      have : xs = [] := h.eq_nil
      rw [this] at hx
      rw [valueCounts_eq_nil.mpr rfl] at hx
      exact absurd hx (by simp)
    | cons q qs =>
      obtain ⟨hp1, hp2, hpmax⟩ := valueCounts_head hx
      obtain ⟨hq1, hq2, hqmax⟩ := valueCounts_head hy
      have h1 : p.2 ≤ q.2 := by
        have : p.1 ∈ ys := h.mem_iff.mp hp1
        calc p.2 = cnt p.1 xs := hp2
          _ = cnt p.1 ys := h.count_eq p.1
          _ ≤ q.2 := hqmax _ this
      have h2 : q.2 ≤ p.2 := by
        have : q.1 ∈ xs := h.mem_iff.mpr hq1
        calc q.2 = cnt q.1 ys := hq2
          _ = cnt q.1 xs := (h.count_eq q.1).symm
          _ ≤ p.2 := hpmax _ this
      simp [Nat.le_antisymm h1 h2]

/-- Days in all years before year `y` of the proleptic Gregorian calendar
(the year count of `datetime.date.toordinal`). -/
def daysBeforeYear (y : Nat) : Nat :=
  (y - 1) * 365 + (y - 1) / 4 - (y - 1) / 100 + (y - 1) / 400

/-- Days in the months of year `y` strictly before month `m`. -/
def daysBeforeMonth (y : Nat) : Nat → Nat
  | 0 => 0
  | 1 => 0
  | m + 1 => daysBeforeMonth y m + monthrange_days y m

/-- `datetime.date(y, m, d).toordinal()`: day number counted from 1 at
0001-01-01. -/
def toOrdinal (y m d : Nat) : Nat :=
  daysBeforeYear y + daysBeforeMonth y m + d

/-- `Series.dt.weekday`: day of week with Monday = 0 through Sunday = 6
(0001-01-01 is a Monday in the proleptic Gregorian calendar). -/
def Timestamp.weekday (t : Timestamp) : Nat :=
  (toOrdinal t.year t.month t.day - 1) % 7

/-- Python `calendar.month_name`: index 0 is the empty string. -/
def month_name : List String :=
  ["", "January", "February", "March", "April", "May", "June",
   "July", "August", "September", "October", "November", "December"]

/-- Python `calendar.day_name`, Monday first. -/
def day_name : List String :=
  ["Monday", "Tuesday", "Wednesday", "Thursday", "Friday", "Saturday", "Sunday"]

/-- `popular_month`: `value_counts` of `Start Time` months, then
`(calendar.month_name[index[0]], iloc[0])`.  On an empty table `.index[0]`
raises `IndexError`, modelled by `none`. -/
def popular_month (city_file : List Trip) : Option (String × Nat) :=
  match valueCounts (city_file.map (fun r => r.startTime.month)) with
  | [] => none
  | (m, n) :: _ => some (month_name.getD m "", n)

/-- `popular_day`: `value_counts` of `Start Time` weekdays, then
`(calendar.day_name[index[0]], iloc[0])`.  `IndexError` on empty data is
`none`. -/
def popular_day (city_file : List Trip) : Option (String × Nat) :=
  match valueCounts (city_file.map (fun r => r.startTime.weekday)) with
  | [] => none
  | (d, n) :: _ => some (day_name.getD d "", n)

/-- `popular_hour`: `value_counts` of `Start Time` hours, then
`(index[0], iloc[0])`.  `IndexError` on empty data is `none`. -/
def popular_hour (city_file : List Trip) : Option (Nat × Nat) :=
  match valueCounts (city_file.map (fun r => r.startTime.hour)) with
  | [] => none
  | p :: _ => some p

/-- Result shape of `trip_duration`: `{'total': ..., 'mean': ...}`. -/
structure TripDurationResult where
  total : Int
  mean : Option ℚ
deriving DecidableEq, Repr

/-- `trip_duration`: `{'total': sum of 'Trip Duration', 'mean': its mean}`.
pandas `sum()` of an empty column is 0 and `mean()` is NaN, modelled by
`none`; otherwise the mean is the exact rational total / row count. -/
def trip_duration (city_file : List Trip) : TripDurationResult :=
  { total := (city_file.map Trip.tripDuration).foldl (· + ·) 0,
    mean :=
      if city_file.length = 0 then none
      else some ((((city_file.map Trip.tripDuration).foldl (· + ·) 0 : Int) : ℚ) /
        (city_file.length : ℚ)) }

/-- `popular_stations`: top-1 of `value_counts` of each station column,
`{'start': (index[0], iloc[0]), 'end': (index[0], iloc[0])}`.  `IndexError`
on empty data is `none`. -/
def popular_stations (city_file : List Trip) :
    Option ((String × Nat) × (String × Nat)) :=
  match valueCounts (city_file.map Trip.startStation),
        valueCounts (city_file.map Trip.endStation) with
  | s :: _, e :: _ => some (s, e)
  | _, _ => none

/-- The (start station, end station) ordered pairs of a table, the grouping
key of `popular_trip`. -/
def tripPairs (city_file : List Trip) : List (String × String) :=
  city_file.map (fun r => (r.startStation, r.endStation))

/-- `popular_trip`: group by the ordered pair `['Start Station', 'End
Station']`, count group sizes, sort descending, and format row 0 as
`"{start} to {end}"` with its count.  `sort_values` leaves the order of
equal counts unspecified (quicksort); the embedding fixes a deterministic
representative with the same counts.  Row 0 of an empty table raises
`KeyError`, modelled by `none`. -/
def popular_trip (city_file : List Trip) : Option (String × Nat) :=
  match valueCounts (tripPairs city_file) with
  | [] => none
  | (p, n) :: _ => some (p.1 ++ " to " ++ p.2, n)

/-- `users`: the full `value_counts` distribution of `'User Type'`. -/
def users (city_file : List Trip) : List (String × Nat) :=
  valueCounts (city_file.map Trip.userType)

/-- `gender`: the full `value_counts` distribution of `'Gender'`
(`value_counts` drops NaN entries, hence the `filterMap`). -/
def gender (city_file : List Trip) : List (String × Nat) :=
  valueCounts (city_file.filterMap Trip.gender)

/-- `birth_years`: `{'oldest': int(min), 'youngest': int(max), 'mode':
int(value_counts().index[0])}` over the `'Birth Year'` column; pandas
`min`/`max`/`value_counts` skip NaN entries (the `filterMap`).  With no
non-NaN entry, `min()` is NaN and `int(nan)` raises `ValueError`, modelled
by `none`. -/
def birth_years (city_file : List Trip) : Option (Int × Int × Int) :=
  match city_file.filterMap Trip.birthYear,
        valueCounts (city_file.filterMap Trip.birthYear) with
  | y :: rest, (m, _) :: _ => some (rest.foldr min y, rest.foldr max y, m)
  | _, _ => none

/-- Popular-month stage of `statistics()`: guarded by
`if time_period['period'] == 'none'`.  `statistics` has no try/except, so an
`IndexError` escaping `popular_month` aborts the whole run. -/
def stage_month (period : String) (t : List Trip) : Except String (List String) :=
  if period = "none" then
    match popular_month t with
    | none => Except.error "IndexError"
    | some _ => Except.ok ["popular_month"]
  else Except.ok []

/-- Popular-day stage: guarded by
`if time_period['period'] == 'none' or time_period['period'] == 'month'`. -/
def stage_day (period : String) (t : List Trip) : Except String (List String) :=
  if period = "none" ∨ period = "month" then
    match popular_day t with
    | none => Except.error "IndexError"
    | some _ => Except.ok ["popular_day"]
  else Except.ok []

/-- Popular-hour stage: unconditional.  `popular_hour(city_data)` is called
before the `is not None` check, so an empty table raises `IndexError` here
and the `'not available'` branch is never reached. -/
def stage_hour (t : List Trip) : Except String (List String) :=
  match popular_hour t with
  | none => Except.error "IndexError"
  | some _ => Except.ok ["popular_hour"]

/-- Trip-duration stage: unconditional; `sum`/`mean` never raise (mean of an
empty column is NaN, which formats without error). -/
def stage_duration (t : List Trip) : Except String (List String) :=
  let _ := trip_duration t
  Except.ok ["trip_duration"]

/-- Popular-stations stage: unconditional; `.index[0]` on an empty table
raises `IndexError`. -/
def stage_stations (t : List Trip) : Except String (List String) :=
  match popular_stations t with
  | none => Except.error "IndexError"
  | some _ => Except.ok ["popular_stations"]

/-- Popular-trip stage: unconditional; row 0 of the empty grouped frame
raises `KeyError`. -/
def stage_trip (t : List Trip) : Except String (List String) :=
  match popular_trip t with
  | none => Except.error "KeyError"
  | some _ => Except.ok ["popular_trip"]

/-- User-type stage: unconditional; `value_counts` of an empty column is an
empty distribution, no exception. -/
def stage_users (t : List Trip) : Except String (List String) :=
  let _ := users t
  Except.ok ["users"]

/-- Gender stage: guarded by `if 'gender' in city_data_elements` (schema
check); when the column is present `value_counts` never raises. -/
def stage_gender (hasGender : Bool) (t : List Trip) : Except String (List String) :=
  if hasGender then
    let _ := gender t
    Except.ok ["gender"]
  else Except.ok []

/-- Birth-year stage: guarded by `if 'birth year' in city_data_elements`;
`int(nan)` on a table with no birth years raises `ValueError`. -/
def stage_birth (hasBirthYear : Bool) (t : List Trip) : Except String (List String) :=
  if hasBirthYear then
    match birth_years t with
    | none => Except.error "ValueError"
    | some _ => Except.ok ["birth_years"]
  else Except.ok []

/-- The aggregate-stage sequence of `statistics()`, in source order, on the
(already filtered) table.  The trace lists the aggregate stages that
produced their report; an uncaught exception in a stage aborts the sequence
— `statistics` installs no handler, so later stages and the restart prompt
never run after a raise. -/
def runStages (period : String) (hasGender hasBirthYear : Bool) (t : List Trip) :
    Except String (List String) :=
  (stage_month period t).bind fun s1 =>
  (stage_day period t).bind fun s2 =>
  (stage_hour t).bind fun s3 =>
  (stage_duration t).bind fun s4 =>
  (stage_stations t).bind fun s5 =>
  (stage_trip t).bind fun s6 =>
  (stage_users t).bind fun s7 =>
  (stage_gender hasGender t).bind fun s8 =>
  (stage_birth hasBirthYear t).bind fun s9 =>
  Except.ok (s1 ++ s2 ++ s3 ++ s4 ++ s5 ++ s6 ++ s7 ++ s8 ++ s9)

/-- A concrete trip row used by the closed-scenario theorems. -/
def mkTrip (ts : Timestamp) (s e : String) (b : Option Int) : Trip :=
  { startTime := ts, endTime := ts, tripDuration := 10,
    startStation := s, endStation := e, userType := "Subscriber",
    gender := none, birthYear := b }

/-- The station scenario of the spec: two A-to-B trips and one A-to-C trip. -/
def stationTrips : List Trip :=
  [mkTrip ⟨2017, 1, 1, 9, 0⟩ "A" "B" none,
   mkTrip ⟨2017, 1, 2, 10, 0⟩ "A" "B" none,
   mkTrip ⟨2017, 1, 3, 11, 0⟩ "A" "C" none]

/-- The birth-year scenario of the spec: years 1980, 1980, 1995. -/
def birthTrips : List Trip :=
  [mkTrip ⟨2017, 2, 1, 8, 0⟩ "S" "T" (some 1980),
   mkTrip ⟨2017, 2, 2, 8, 0⟩ "S" "T" (some 1980),
   mkTrip ⟨2017, 2, 3, 8, 0⟩ "S" "T" (some 1995)]

/-- C1: for every trip table and every month- or day-granularity selector,
`filter_city_data` returns exactly the rows whose start-time calendar date
lies between the selector's start date and end date, both bounds inclusive;
only `Series.dt.date` is consulted, so the time of day is ignored. -/
theorem filter_exact_date_range (table : List Trip) (m d : Nat) :
    (∃ l, filter_city_data table (get_time_period_month m) = some l ∧
      ∀ r : Trip, r ∈ l ↔ r ∈ table ∧
        (Date.le ⟨2017, m, 1⟩ r.startTime.date = true ∧
         Date.le r.startTime.date ⟨2017, m, monthrange_days 2017 m⟩ = true)) ∧
    (∃ l, filter_city_data table (get_time_period_day m d) = some l ∧
      ∀ r : Trip, r ∈ l ↔ r ∈ table ∧
        (Date.le ⟨2017, m, d⟩ r.startTime.date = true ∧
         Date.le r.startTime.date ⟨2017, m, d⟩ = true)) := by
  constructor
  · refine ⟨_, rfl, ?_⟩
    intro r
    simp only [List.mem_filter, Bool.and_eq_true]
  · refine ⟨_, rfl, ?_⟩
    intro r
    simp only [List.mem_filter, Bool.and_eq_true]

/-- C10: the filtered table is a subsequence of the input table — every
output row occurs in the input and relative row order is preserved (the
input itself is untouched, the filter building a new view). -/
theorem filter_is_subsequence (table : List Trip) (tp : TimePeriod) (l : List Trip)
    (h : filter_city_data table tp = some l) : l.Sublist table := by
  cases hy : tp.year with
  | none => simp [filter_city_data, hy] at h
  | some y =>
    cases hm : tp.month with
    | none => simp [filter_city_data, hy, hm] at h
    | some m =>
      cases h1 : tp.dayLo with
      | none => simp [filter_city_data, hy, hm, h1] at h
      | some d1 =>
        cases h2 : tp.dayHi with
        | none => simp [filter_city_data, hy, hm, h1, h2] at h
        | some d2 =>
          simp only [filter_city_data, hy, hm, h1, h2, Option.some.injEq] at h
          rw [← h]
          exact List.filter_sublist table

theorem filter_is_subsequence_witness :
    filter_city_data stationTrips (get_time_period_day 1 1) =
      some [mkTrip ⟨2017, 1, 1, 9, 0⟩ "A" "B" none] ∧
    [mkTrip ⟨2017, 1, 1, 9, 0⟩ "A" "B" none].Sublist stationTrips :=
  ⟨by decide,
   filter_is_subsequence stationTrips (get_time_period_day 1 1)
     [mkTrip ⟨2017, 1, 1, 9, 0⟩ "A" "B" none] (by decide)⟩

/-- C4: a month-granularity selector for month `m` of 2017 covers the day
range `[1, monthrange(2017, m)[1]]`; the month lengths for January–June
2017 are 31, 28, 31, 30, 31, 30 (February has 28 days, 2017 not being a
leap year), and a day-granularity selector collapses to `[d, d]`. -/
theorem month_selector_covers_whole_month (m : Nat) (_h1 : 1 ≤ m) (_h2 : m ≤ 6) :
    (get_time_period_month m).dayLo = some 1 ∧
    (get_time_period_month m).dayHi = some (monthrange_days 2017 m) ∧
    (List.range 6).map (fun k => monthrange_days 2017 (k + 1)) =
      [31, 28, 31, 30, 31, 30] ∧
    monthrange_days 2017 2 = 28 ∧
    ∀ dd : Nat, (get_time_period_day m dd).dayLo = some dd ∧
      (get_time_period_day m dd).dayHi = some dd :=
  ⟨rfl, rfl, by decide, by decide, fun _ => ⟨rfl, rfl⟩⟩

theorem month_selector_covers_whole_month_witness :
    (1 ≤ 2 ∧ 2 ≤ 6) ∧
    ((get_time_period_month 2).dayLo = some 1 ∧
     (get_time_period_month 2).dayHi = some (monthrange_days 2017 2) ∧
     (List.range 6).map (fun k => monthrange_days 2017 (k + 1)) =
       [31, 28, 31, 30, 31, 30] ∧
     monthrange_days 2017 2 = 28 ∧
     ∀ dd : Nat, (get_time_period_day 2 dd).dayLo = some dd ∧
       (get_time_period_day 2 dd).dayHi = some dd) :=
  ⟨⟨by decide, by decide⟩,
   month_selector_covers_whole_month 2 (by decide) (by decide)⟩

/-- C2: the popular-hour stage on an empty filtered table.  `popular_hour`
evaluates `hour_values.index[0]` on an empty `value_counts` series, which
raises `IndexError` (modelled by `none`); the raise escapes into the driver
before the `is not None` guard, so the stage errors out instead of
reporting "not available". -/
theorem popular_hour_empty_raises :
    popular_hour ([] : List Trip) = none ∧
    stage_hour ([] : List Trip) = Except.error "IndexError" :=
  ⟨rfl, rfl⟩

/-- C3 counterexample: a day-granularity session whose filter matched no
rows.  The popular-hour stage raises and, `statistics` having no handler,
the whole run aborts — no later aggregate stage executes and the restart
prompt is never reached, refuting stage isolation. -/
theorem statistics_aborts_on_empty_table :
    runStages "day" false false ([] : List Trip) = Except.error "IndexError" := by
  rfl

/-- C3 (amended): a failure in an aggregate stage propagates: when the
popular-hour stage raises, `statistics` returns that error and none of the
subsequent aggregate stages (nor the restart prompt) execute. -/
theorem stage_failure_propagates (period : String) (hg hb : Bool) (t : List Trip)
    (e : String) (a b : List String)
    (hm : stage_month period t = Except.ok a)
    (hd : stage_day period t = Except.ok b)
    (hh : stage_hour t = Except.error e) :
    runStages period hg hb t = Except.error e := by
  simp [runStages, hm, hd, hh, Except.bind]

theorem stage_failure_propagates_witness :
    (stage_month "day" ([] : List Trip) = Except.ok [] ∧
     stage_day "day" ([] : List Trip) = Except.ok [] ∧
     stage_hour ([] : List Trip) = Except.error "IndexError") ∧
    runStages "day" false false ([] : List Trip) = Except.error "IndexError" :=
  ⟨⟨rfl, rfl, rfl⟩,
   stage_failure_propagates "day" false false [] "IndexError" [] [] rfl rfl rfl⟩

/-- C5: on a non-empty table, `popular_trip` groups by the ordered pair
(start station, end station) and returns a most frequent ordered pair
formatted `"{start} to {end}"` with its exact occurrence count; the
two-A-to-B-one-A-to-C scenario yields `popular_stations.start = ("A", 3)`
and `popular_trip = ("A to B", 2)`. -/
theorem popular_trip_ordered_pairs (t : List Trip) (h : t ≠ []) :
    (∃ a b n, popular_trip t = some (a ++ " to " ++ b, n) ∧
      (a, b) ∈ tripPairs t ∧ n = cnt (a, b) (tripPairs t) ∧
      ∀ q ∈ tripPairs t, cnt q (tripPairs t) ≤ n) ∧
    popular_stations stationTrips = some (("A", 3), ("B", 2)) ∧
    popular_trip stationTrips = some ("A to B", 2) := by
  refine ⟨?_, by decide, by decide⟩
  have hne : tripPairs t ≠ [] := by
    cases t with
    | nil => exact absurd rfl h
    | cons x xs => simp [tripPairs]
  cases hvc : valueCounts (tripPairs t) with
  | nil => exact absurd (valueCounts_eq_nil.mp hvc) hne
  | cons p ps =>
    obtain ⟨⟨a, b⟩, n⟩ := p
    obtain ⟨hp1, hp2, hpmax⟩ := valueCounts_head hvc
    refine ⟨a, b, n, ?_, hp1, hp2, hpmax⟩
    unfold popular_trip
    rw [hvc]

/-- Closed witness for C5, at the spec's station scenario. -/
theorem popular_trip_ordered_pairs_witness :
    stationTrips ≠ [] ∧
    ((∃ a b n, popular_trip stationTrips = some (a ++ " to " ++ b, n) ∧
      (a, b) ∈ tripPairs stationTrips ∧ n = cnt (a, b) (tripPairs stationTrips) ∧
      ∀ q ∈ tripPairs stationTrips, cnt q (tripPairs stationTrips) ≤ n) ∧
     popular_stations stationTrips = some (("A", 3), ("B", 2)) ∧
     popular_trip stationTrips = some ("A to B", 2)) :=
  ⟨by decide, popular_trip_ordered_pairs stationTrips (by decide)⟩

/-- C6: `trip_duration.total` is the literal sum of the duration column,
and on a non-empty table `trip_duration.mean` is exactly that total divided
by the row count (the embedding computes in ℚ, so "within floating-point
tolerance" holds exactly). -/
theorem trip_duration_sum_mean (t : List Trip) (h : t ≠ []) :
    (trip_duration t).total = (t.map Trip.tripDuration).sum ∧
    (trip_duration t).mean =
      some ((((t.map Trip.tripDuration).sum : Int) : ℚ) / (t.length : ℚ)) := by
  have hlen : ¬ t.length = 0 := fun hh => h (List.length_eq_zero.mp hh)
  constructor
  · show (t.map Trip.tripDuration).foldl (· + ·) 0 = (t.map Trip.tripDuration).sum
    exact List.sum_eq_foldl.symm
  · show (if t.length = 0 then none else _) = _
    rw [if_neg hlen, List.sum_eq_foldl]

theorem trip_duration_sum_mean_witness :
    stationTrips ≠ [] ∧
    ((trip_duration stationTrips).total = (stationTrips.map Trip.tripDuration).sum ∧
     (trip_duration stationTrips).mean =
       some ((((stationTrips.map Trip.tripDuration).sum : Int) : ℚ) /
         (stationTrips.length : ℚ))) :=
  ⟨by decide, trip_duration_sum_mean stationTrips (by decide)⟩

theorem foldr_min_mem {β : Type} [LinearOrder β] (y : β) (l : List β) :
    l.foldr min y ∈ y :: l := by
  induction l with
  | nil => exact List.mem_singleton.mpr rfl
  | cons a l ih =>
    show min a (l.foldr min y) ∈ y :: a :: l
    rcases le_total a (l.foldr min y) with hle | hle
    · rw [min_eq_left hle]
      exact List.mem_cons_of_mem _ (List.mem_cons_self a l)
    · rw [min_eq_right hle]
      rcases List.mem_cons.mp ih with hy | hl
      · rw [hy]
        exact List.mem_cons_self y (a :: l)
      · exact List.mem_cons_of_mem _ (List.mem_cons_of_mem _ hl)

theorem foldr_min_le {β : Type} [LinearOrder β] (y : β) (l : List β) :
    ∀ b ∈ y :: l, l.foldr min y ≤ b := by
  induction l with
  | nil =>
    intro b hb
    rw [List.mem_singleton.mp hb]
    exact le_refl y
  | cons a l ih =>
    intro b hb
    show min a (l.foldr min y) ≤ b
    rcases List.mem_cons.mp hb with rfl | hb'
    · exact le_trans (min_le_right _ _) (ih b (List.mem_cons_self b l))
    · rcases List.mem_cons.mp hb' with rfl | hb''
      · exact min_le_left _ _
      · exact le_trans (min_le_right _ _) (ih b (List.mem_cons_of_mem _ hb''))

theorem foldr_max_mem {β : Type} [LinearOrder β] (y : β) (l : List β) :
    l.foldr max y ∈ y :: l := by
  induction l with
  | nil => exact List.mem_singleton.mpr rfl
  | cons a l ih =>
    show max a (l.foldr max y) ∈ y :: a :: l
    rcases le_total a (l.foldr max y) with hle | hle
    · rw [max_eq_right hle]
      rcases List.mem_cons.mp ih with hy | hl
      · rw [hy]
        exact List.mem_cons_self y (a :: l)
      · exact List.mem_cons_of_mem _ (List.mem_cons_of_mem _ hl)
    · rw [max_eq_left hle]
      exact List.mem_cons_of_mem _ (List.mem_cons_self a l)

theorem foldr_max_ge {β : Type} [LinearOrder β] (y : β) (l : List β) :
    ∀ b ∈ y :: l, b ≤ l.foldr max y := by
  induction l with
  | nil =>
    intro b hb
    rw [List.mem_singleton.mp hb]
    exact le_refl y
  | cons a l ih =>
    intro b hb
    show b ≤ max a (l.foldr max y)
    rcases List.mem_cons.mp hb with rfl | hb'
    · exact le_trans (ih b (List.mem_cons_self b l)) (le_max_right _ _)
    · rcases List.mem_cons.mp hb' with rfl | hb''
      · exact le_max_left _ _
      · exact le_trans (ih b (List.mem_cons_of_mem _ hb'')) (le_max_right _ _)

/-- C9: on a table with at least one (non-NaN) birth year, `birth_years`
returns the minimum year as `oldest`, the maximum year as `youngest` and a
most frequent year as `mode`; the years-[1980, 1980, 1995] scenario yields
`{oldest: 1980, youngest: 1995, mode: 1980}`. -/
theorem birth_years_min_max_mode (t : List Trip)
    (h : t.filterMap Trip.birthYear ≠ []) :
    (∃ o yg mo, birth_years t = some (o, yg, mo) ∧
      (o ∈ t.filterMap Trip.birthYear ∧
        ∀ b ∈ t.filterMap Trip.birthYear, o ≤ b) ∧
      (yg ∈ t.filterMap Trip.birthYear ∧
        ∀ b ∈ t.filterMap Trip.birthYear, b ≤ yg) ∧
      (mo ∈ t.filterMap Trip.birthYear ∧
        ∀ b ∈ t.filterMap Trip.birthYear,
          cnt b (t.filterMap Trip.birthYear) ≤ cnt mo (t.filterMap Trip.birthYear))) ∧
    birth_years birthTrips = some (1980, 1995, 1980) := by
  refine ⟨?_, by decide⟩
  cases hys : t.filterMap Trip.birthYear with
  | nil => exact absurd hys h
  | cons y rest =>
    cases hvc : valueCounts (t.filterMap Trip.birthYear) with
    | nil =>
      rw [hys] at hvc
      exact absurd (valueCounts_eq_nil.mp hvc) (List.cons_ne_nil y rest)
    | cons p ps =>
      rw [hys] at hvc
      obtain ⟨m0, c0⟩ := p
      obtain ⟨hm1, hm2, hmmax⟩ := valueCounts_head hvc
      refine ⟨rest.foldr min y, rest.foldr max y, m0, ?_, ?_, ?_, ?_⟩
      · unfold birth_years
        rw [hys, hvc]
      · exact ⟨foldr_min_mem y rest, foldr_min_le y rest⟩
      · exact ⟨foldr_max_mem y rest, foldr_max_ge y rest⟩
      · refine ⟨hm1, fun b hb => ?_⟩
        have hle := hmmax b hb
        rw [hm2] at hle
        exact hle

/-- Closed witness for C9, at the spec's birth-year scenario. -/
theorem birth_years_min_max_mode_witness :
    birthTrips.filterMap Trip.birthYear ≠ [] ∧
    ((∃ o yg mo, birth_years birthTrips = some (o, yg, mo) ∧
      (o ∈ birthTrips.filterMap Trip.birthYear ∧
        ∀ b ∈ birthTrips.filterMap Trip.birthYear, o ≤ b) ∧
      (yg ∈ birthTrips.filterMap Trip.birthYear ∧
        ∀ b ∈ birthTrips.filterMap Trip.birthYear, b ≤ yg) ∧
      (mo ∈ birthTrips.filterMap Trip.birthYear ∧
        ∀ b ∈ birthTrips.filterMap Trip.birthYear,
          cnt b (birthTrips.filterMap Trip.birthYear) ≤
            cnt mo (birthTrips.filterMap Trip.birthYear))) ∧
     birth_years birthTrips = some (1980, 1995, 1980)) :=
  ⟨by decide, birth_years_min_max_mode birthTrips (by decide)⟩

theorem popular_month_snd (t : List Trip) :
    (popular_month t).map Prod.snd =
      (valueCounts (t.map (fun r => r.startTime.month))).head?.map Prod.snd := by
  cases hvc : valueCounts (t.map (fun r => r.startTime.month)) with
  | nil => unfold popular_month; rw [hvc]; rfl
  | cons p ps =>
    obtain ⟨m, n⟩ := p
    unfold popular_month
    rw [hvc]
    rfl

theorem popular_day_snd (t : List Trip) :
    (popular_day t).map Prod.snd =
      (valueCounts (t.map (fun r => r.startTime.weekday))).head?.map Prod.snd := by
  cases hvc : valueCounts (t.map (fun r => r.startTime.weekday)) with
  | nil => unfold popular_day; rw [hvc]; rfl
  | cons p ps =>
    obtain ⟨d, n⟩ := p
    unfold popular_day
    rw [hvc]
    rfl

theorem popular_hour_snd (t : List Trip) :
    (popular_hour t).map Prod.snd =
      (valueCounts (t.map (fun r => r.startTime.hour))).head?.map Prod.snd := by
  cases hvc : valueCounts (t.map (fun r => r.startTime.hour)) with
  | nil => unfold popular_hour; rw [hvc]; rfl
  | cons p ps =>
    obtain ⟨h, n⟩ := p
    unfold popular_hour
    rw [hvc]
    rfl

/-- C8: `popular_month`, `popular_day` and `popular_hour` report the same
count on any permutation of the rows — the top multiplicity does not depend
on row order (when ties exist the named value may follow the tie-break, but
the count is order-insensitive; on empty input both sides raise alike). -/
theorem aggregates_permutation_invariant (t t' : List Trip) (h : t.Perm t') :
    (popular_month t).map Prod.snd = (popular_month t').map Prod.snd ∧
    (popular_day t).map Prod.snd = (popular_day t').map Prod.snd ∧
    (popular_hour t).map Prod.snd = (popular_hour t').map Prod.snd := by
  refine ⟨?_, ?_, ?_⟩
  · rw [popular_month_snd, popular_month_snd]
    exact valueCounts_head_count_perm (h.map _)
  · rw [popular_day_snd, popular_day_snd]
    exact valueCounts_head_count_perm (h.map _)
  · rw [popular_hour_snd, popular_hour_snd]
    exact valueCounts_head_count_perm (h.map _)

/-- A second pair of concrete trips for the permutation witness. -/
def tripX : Trip := mkTrip ⟨2017, 3, 4, 7, 30⟩ "X" "Y" none

def tripY : Trip := mkTrip ⟨2017, 3, 5, 8, 30⟩ "X" "Z" none

theorem aggregates_permutation_invariant_witness :
    ([tripX, tripY].Perm [tripY, tripX]) ∧
    ((popular_month [tripX, tripY]).map Prod.snd =
        (popular_month [tripY, tripX]).map Prod.snd ∧
      (popular_day [tripX, tripY]).map Prod.snd =
        (popular_day [tripY, tripX]).map Prod.snd ∧
      (popular_hour [tripX, tripY]).map Prod.snd =
        (popular_hour [tripY, tripX]).map Prod.snd) :=
  ⟨List.Perm.swap tripY tripX [],
   aggregates_permutation_invariant [tripX, tripY] [tripY, tripX]
     (List.Perm.swap tripY tripX [])⟩

theorem stage_month_ok {period : String} {t : List Trip} {a : List String}
    (h : stage_month period t = Except.ok a) :
    a = if period = "none" then ["popular_month"] else [] := by
  by_cases hp : period = "none"
  · rw [if_pos hp]
    unfold stage_month at h
    rw [if_pos hp] at h
    cases hpm : popular_month t <;> rw [hpm] at h
    · exact Except.noConfusion h
    · exact (Except.ok.inj h).symm
  · rw [if_neg hp]
    unfold stage_month at h
    rw [if_neg hp] at h
    exact (Except.ok.inj h).symm

theorem stage_day_ok {period : String} {t : List Trip} {a : List String}
    (h : stage_day period t = Except.ok a) :
    a = if period = "none" ∨ period = "month" then ["popular_day"] else [] := by
  by_cases hp : period = "none" ∨ period = "month"
  · rw [if_pos hp]
    unfold stage_day at h
    rw [if_pos hp] at h
    cases hpm : popular_day t <;> rw [hpm] at h
    · exact Except.noConfusion h
    · exact (Except.ok.inj h).symm
  · rw [if_neg hp]
    unfold stage_day at h
    rw [if_neg hp] at h
    exact (Except.ok.inj h).symm

theorem stage_hour_ok {t : List Trip} {a : List String}
    (h : stage_hour t = Except.ok a) : a = ["popular_hour"] := by
  unfold stage_hour at h
  cases hpm : popular_hour t <;> rw [hpm] at h
  · exact Except.noConfusion h
  · exact (Except.ok.inj h).symm

theorem stage_duration_ok {t : List Trip} {a : List String}
    (h : stage_duration t = Except.ok a) : a = ["trip_duration"] :=
  (Except.ok.inj h).symm

theorem stage_stations_ok {t : List Trip} {a : List String}
    (h : stage_stations t = Except.ok a) : a = ["popular_stations"] := by
  unfold stage_stations at h
  cases hpm : popular_stations t <;> rw [hpm] at h
  · exact Except.noConfusion h
  · exact (Except.ok.inj h).symm

theorem stage_trip_ok {t : List Trip} {a : List String}
    (h : stage_trip t = Except.ok a) : a = ["popular_trip"] := by
  unfold stage_trip at h
  cases hpm : popular_trip t <;> rw [hpm] at h
  · exact Except.noConfusion h
  · exact (Except.ok.inj h).symm

theorem stage_users_ok {t : List Trip} {a : List String}
    (h : stage_users t = Except.ok a) : a = ["users"] :=
  (Except.ok.inj h).symm

theorem stage_gender_ok {hg : Bool} {t : List Trip} {a : List String}
    (h : stage_gender hg t = Except.ok a) :
    a = if hg then ["gender"] else [] := by
  cases hg
  · exact (Except.ok.inj h).symm
  · exact (Except.ok.inj h).symm

theorem stage_birth_ok {hb : Bool} {t : List Trip} {a : List String}
    (h : stage_birth hb t = Except.ok a) :
    a = if hb then ["birth_years"] else [] := by
  cases hb
  · exact (Except.ok.inj h).symm
  · unfold stage_birth at h
    cases hpm : birth_years t <;> rw [hpm] at h
    · exact Except.noConfusion h
    · simp only [if_true]
      exact (Except.ok.inj h).symm

theorem runStages_ok_form {period : String} {hg hb : Bool} {t : List Trip}
    {ls : List String} (h : runStages period hg hb t = Except.ok ls) :
    ls = (if period = "none" then ["popular_month"] else []) ++
      (if period = "none" ∨ period = "month" then ["popular_day"] else []) ++
      ["popular_hour"] ++ ["trip_duration"] ++ ["popular_stations"] ++
      ["popular_trip"] ++ ["users"] ++
      (if hg then ["gender"] else []) ++ (if hb then ["birth_years"] else []) := by
  unfold runStages at h
  cases h1 : stage_month period t with
  | error e => rw [h1] at h; exact Except.noConfusion h
  | ok a1 =>
  rw [h1] at h
  cases h2 : stage_day period t with
  | error e => rw [h2] at h; exact Except.noConfusion h
  | ok a2 =>
  rw [h2] at h
  cases h3 : stage_hour t with
  | error e => rw [h3] at h; exact Except.noConfusion h
  | ok a3 =>
  rw [h3] at h
  cases h4 : stage_duration t with
  | error e => rw [h4] at h; exact Except.noConfusion h
  | ok a4 =>
  rw [h4] at h
  cases h5 : stage_stations t with
  | error e => rw [h5] at h; exact Except.noConfusion h
  | ok a5 =>
  rw [h5] at h
  cases h6 : stage_trip t with
  | error e => rw [h6] at h; exact Except.noConfusion h
  | ok a6 =>
  rw [h6] at h
  cases h7 : stage_users t with
  | error e => rw [h7] at h; exact Except.noConfusion h
  | ok a7 =>
  rw [h7] at h
  cases h8 : stage_gender hg t with
  | error e => rw [h8] at h; exact Except.noConfusion h
  | ok a8 =>
  rw [h8] at h
  cases h9 : stage_birth hb t with
  | error e => rw [h9] at h; exact Except.noConfusion h
  | ok a9 =>
  rw [h9] at h
  simp only [Except.bind, Except.ok.injEq] at h
  rw [← h, stage_month_ok h1, stage_day_ok h2, stage_hour_ok h3,
    stage_duration_ok h4, stage_stations_ok h5, stage_trip_ok h6,
    stage_users_ok h7, stage_gender_ok h8, stage_birth_ok h9]

/-- C7: in every session of the driver that reaches its end, the
popular-month report is present exactly when the filter granularity is
`'none'`; the popular-day report exactly when it is `'none'` or `'month'`;
and the popular-hour stage is unconditional, so its report is always
present. -/
theorem driver_skip_rules (period : String) (hg hb : Bool) (t : List Trip)
    (ls : List String) (h : runStages period hg hb t = Except.ok ls) :
    (("popular_month" ∈ ls) ↔ period = "none") ∧
    (("popular_day" ∈ ls) ↔ (period = "none" ∨ period = "month")) ∧
    "popular_hour" ∈ ls := by
  rw [runStages_ok_form h]
  by_cases hp : period = "none" <;> by_cases hq : period = "month" <;>
    cases hg <;> cases hb <;> simp [hp, hq]

theorem driver_skip_rules_witness :
    runStages "none" false false stationTrips =
      Except.ok ["popular_month", "popular_day", "popular_hour",
        "trip_duration", "popular_stations", "popular_trip", "users"] ∧
    ((("popular_month" ∈ ["popular_month", "popular_day", "popular_hour",
        "trip_duration", "popular_stations", "popular_trip", "users"]) ↔
          ("none" : String) = "none") ∧
     (("popular_day" ∈ ["popular_month", "popular_day", "popular_hour",
        "trip_duration", "popular_stations", "popular_trip", "users"]) ↔
          (("none" : String) = "none" ∨ ("none" : String) = "month")) ∧
     "popular_hour" ∈ ["popular_month", "popular_day", "popular_hour",
        "trip_duration", "popular_stations", "popular_trip", "users"]) :=
  ⟨rfl, driver_skip_rules "none" false false stationTrips _ rfl⟩
